import Mathlib

/-!
Shallow embedding of the spline interpolation engine from
`src/verbatim_spline.hpp` (class `Spline` and its point record), together
with proofs of the behavioural properties stated in the specification.

Numeric values are modelled over `ℚ` (the C++ code computes with IEEE
floats; all properties under scrutiny are exact algebraic identities, so
the idealised field is the appropriate setting).  The external vec3 math
library (`vec3`, `mix`, componentwise arithmetic) is not part of the
translated unit; `mix` and the vector operations are modelled from the
specification, while `normalize`, `length` and `sqrtf` are kept as
abstract function parameters, exactly as the specification designates
them external collaborators.
-/

namespace SplineModel

/-- Modelled from the spec: 3D vector from the external math library,
with exact rational components. -/
structure Vec3 where
  x : ℚ
  y : ℚ
  z : ℚ
deriving DecidableEq, Repr

instance : Add Vec3 := ⟨fun a b => ⟨a.x + b.x, a.y + b.y, a.z + b.z⟩⟩

instance : Sub Vec3 := ⟨fun a b => ⟨a.x - b.x, a.y - b.y, a.z - b.z⟩⟩

/-- Vector-times-scalar, as used by the C++ code (`vec3 * float`). -/
instance : HMul Vec3 ℚ Vec3 := ⟨fun v c => ⟨v.x * c, v.y * c, v.z * c⟩⟩

/-- Modelled from the spec: the standard linear-interpolation `mix`
primitive of the external math library, `mix(x, y, a) = x*(1-a) + y*a`. -/
def mixq (a b t : ℚ) : ℚ := a * (1 - t) + b * t

/-- Componentwise `mix` on vectors. -/
def mixV (a b : Vec3) (t : ℚ) : Vec3 := ⟨mixq a.x b.x t, mixq a.y b.y t, mixq a.z b.z t⟩

/-- The spline point record (`SplinePoint`): anchor position, duration to
the next point (`m_timestamp` in the source), and the two tangent-helper
anchors written by precalculation. -/
structure SplinePoint where
  point : Vec3
  timestamp : ℚ
  prev : Vec3
  next : Vec3
deriving DecidableEq, Repr

/-- Default point used to totalise accessors whose C++ counterpart is
undefined behaviour on an empty sequence. -/
def defaultPoint : SplinePoint := ⟨⟨0, 0, 0⟩, 0, ⟨0, 0, 0⟩, ⟨0, 0, 0⟩⟩

instance : Inhabited SplinePoint := ⟨defaultPoint⟩

/-- `m_points.front()`. -/
def firstPoint (pts : List SplinePoint) : SplinePoint := pts.headD defaultPoint

/-- `m_points.back()`. -/
def lastPoint (pts : List SplinePoint) : SplinePoint := pts.getLastD defaultPoint

/-- `m_points[i]` for an in-range index. -/
def pointAt (pts : List SplinePoint) (i : Nat) : SplinePoint := pts.getD i defaultPoint

/-- `Spline::getPointClamped`: last point for an index at or past the end,
first point for a negative index, the indexed point otherwise. -/
def getPointClamped (pts : List SplinePoint) (idx : Int) : SplinePoint :=
  if (pts.length : Int) ≤ idx then lastPoint pts
  else if idx < 0 then firstPoint pts
  else pointAt pts idx.toNat

/-- The spline state: point sequence and mode
(`false` = WEIGHTED, `true` = BEZIER, as in the source comment). -/
structure Spline where
  points : List SplinePoint
  mode : Bool
deriving DecidableEq, Repr

/-- `Spline::splineInterpolateBezier`: De Casteljau over
`curr.anchor, curr.nextTangentAnchor, next.prevTangentAnchor, next.anchor`. -/
def splineInterpolateBezier (s : Spline) (idx : Nat) (interp : ℚ) : Vec3 :=
  let sidx : Int := (idx : Int)
  let curr := getPointClamped s.points sidx
  let next := getPointClamped s.points (sidx + 1)
  let aa := curr.point
  let bb := curr.next
  let cc := next.prev
  let dd := next.point
  let ee := mixV aa bb interp
  let ff := mixV bb cc interp
  let gg := mixV cc dd interp
  let hh := mixV ee ff interp
  let ii := mixV ff gg interp
  mixV hh ii interp

/-- `Spline::splineInterpolateWeighted`: average of the three pairwise
mixes of the four clamped anchors around the base index. -/
def splineInterpolateWeighted (s : Spline) (idx : Nat) (interp : ℚ) : Vec3 :=
  let sidx : Int := (idx : Int)
  let aa := (getPointClamped s.points (sidx - 1)).point
  let bb := (getPointClamped s.points sidx).point
  let cc := (getPointClamped s.points (sidx + 1)).point
  let dd := (getPointClamped s.points (sidx + 2)).point
  (mixV aa bb interp + mixV bb cc interp + mixV cc dd interp) * ((1 : ℚ) / 3)

section Precalculate

variable (sqrtf : ℚ → ℚ) (normalizeV : Vec3 → Vec3) (lengthV : Vec3 → ℚ)

/-- The body of the `Spline::precalculate` loop for a single point:
write the two tangent anchors computed from the clamped neighbours. -/
def precalcPoint (pts : List SplinePoint) (i : Nat) (p : SplinePoint) : SplinePoint :=
  let prevA := (getPointClamped pts ((i : Int) - 1)).point
  let nextA := (getPointClamped pts ((i : Int) + 1)).point
  let curr := p.point
  { p with
    prev := normalizeV (prevA - nextA) * sqrtf (lengthV (prevA - curr)) + curr
    next := normalizeV (nextA - prevA) * sqrtf (lengthV (nextA - curr)) + curr }

/-- The `Spline::precalculate` loop, walking the suffix starting at index
`i` while reading clamped anchors from the original sequence (the loop
only ever writes tangent fields and only ever reads anchors, so reading
from the original sequence is exact). -/
def precalcFrom (orig : List SplinePoint) : Nat → List SplinePoint → List SplinePoint
  | _, [] => []
  | i, p :: rest =>
      precalcPoint sqrtf normalizeV lengthV orig i p ::
        precalcFrom orig (i + 1) rest

/-- `Spline::precalculate`. -/
def precalculate (pts : List SplinePoint) : List SplinePoint :=
  precalcFrom sqrtf normalizeV lengthV pts 0 pts

end Precalculate

/-- Decoding one non-terminator group of four 16-bit values into a point:
`addPoint(vec3(float(op1), float(op2), float(op3)), float(op4))`.
The tangent fields start out zero (they are overwritten by
precalculation before any use). -/
def decodePoint (op1 op2 op3 op4 : Int) : SplinePoint :=
  ⟨⟨(op1 : ℚ), (op2 : ℚ), (op3 : ℚ)⟩, (op4 : ℚ), ⟨0, 0, 0⟩, ⟨0, 0, 0⟩⟩

/-- `Spline::addPoint` (the `int16_t` wrapper) in a non-validating build:
append unconditionally. -/
def addPoint (s : Spline) (op1 op2 op3 op4 : Int) : Spline :=
  { s with points := s.points ++ [decodePoint op1 op2 op3 op4] }

/-- Diagnostic text of the validating build's duration check. -/
def invalidTimestampError : String :=
  "tried to add spline point with invalid timestamp"

/-- `Spline::addPoint` (the `int16_t` wrapper) in a validating (`USE_LD`)
build: a negative fourth operand throws before the point is appended. -/
def addPointChecked (s : Spline) (op1 op2 op3 op4 : Int) : Except String Spline :=
  if 0 > op4 then Except.error invalidTimestampError
  else Except.ok (addPoint s op1 op2 op3 op4)

/-- `Spline::is_segment_end`: all four values of the group are zero. -/
def is_segment_end (op1 op2 op3 op4 : Int) : Bool :=
  op1 == 0 && op2 == 0 && op3 == 0 && op4 == 0

section ReadData

variable (sqrtf : ℚ → ℚ) (normalizeV : Vec3 → Vec3) (lengthV : Vec3 → ℚ)

/-- The `Spline::readData` loop over the point sequence: consume groups of
four values until the terminator, then precalculate; returns the final
point sequence and the number of values consumed (the cursor advance).
`none` models running past the end of the buffer, which is undefined
behaviour in the C++ source. -/
def readDataAux (points : List SplinePoint) :
    List Int → Option (List SplinePoint × Nat)
  | op1 :: op2 :: op3 :: op4 :: rest =>
      if is_segment_end op1 op2 op3 op4 then
        some (precalculate sqrtf normalizeV lengthV points, 4)
      else
        match readDataAux (points ++ [decodePoint op1 op2 op3 op4]) rest with
        | some (ps, n) => some (ps, n + 4)
        | none => none
  | _ => none

/-- `Spline::readData`. -/
def readData (s : Spline) (data : List Int) : Option (Spline × Nat) :=
  match readDataAux sqrtf normalizeV lengthV s.points data with
  | some (ps, n) => some ({ s with points := ps }, n)
  | none => none

end ReadData

/-- The `Spline::resolvePosition` loop over the point suffix starting at
absolute index `i` with accumulated time `currentTime`; falls through to
`m_points.back().getPoint()` when no segment matches. -/
def resolveLoop (s : Spline) (stamp : ℚ) :
    List SplinePoint → Nat → ℚ → Vec3
  | [], _, _ => (lastPoint s.points).point
  | p :: rest, i, currentTime =>
      if currentTime + p.timestamp > stamp then
        (if s.mode then splineInterpolateBezier s i
         else splineInterpolateWeighted s i)
          ((stamp - currentTime) / p.timestamp)
      else
        resolveLoop s stamp rest (i + 1) (currentTime + p.timestamp)

/-- `Spline::resolvePosition` in a non-validating build. -/
def resolvePosition (s : Spline) (stamp : ℚ) : Vec3 :=
  resolveLoop s stamp s.points 0 0

/-- `Spline::resolvePosition` in a validating (`USE_LD`) build: throws on
an empty point sequence before resolving. -/
def resolvePositionChecked (s : Spline) (stamp : ℚ) : Except String Vec3 :=
  if s.points.isEmpty then Except.error "incorrect spline data"
  else Except.ok (resolvePosition s stamp)

/-- Accumulated time strictly before index `i`: the sum of
`durationToNext` over the first `i` points. -/
def cumBefore (pts : List SplinePoint) (i : Nat) : ℚ :=
  ((pts.take i).map SplinePoint.timestamp).sum

/-- Sum of `durationToNext` over every point of the sequence. -/
def totalDuration (pts : List SplinePoint) : ℚ :=
  (pts.map SplinePoint.timestamp).sum

/-- Sum of `durationToNext` over every point except the last. -/
def totalDurationExceptLast (pts : List SplinePoint) : ℚ :=
  (pts.dropLast.map SplinePoint.timestamp).sum

/-- One encoded group of four signed 16-bit values
`(x, y, z, durationTicks)` of the binary control-point stream. -/
structure Group4 where
  a : Int
  b : Int
  c : Int
  d : Int
deriving DecidableEq, Repr

/-- Flatten a list of groups into the integer stream consumed by
`readData`. -/
def encodeGroups : List Group4 → List Int
  | [] => []
  | g :: gs => g.a :: g.b :: g.c :: g.d :: encodeGroups gs

/-- The two-point curve of the specification's concrete scenario:
anchors `(0,0,0)` and `(100,0,0)`, durations 10 and 10, WEIGHTED mode. -/
def demoSpline : Spline :=
  { points :=
      [ ⟨⟨0, 0, 0⟩, 10, ⟨0, 0, 0⟩, ⟨0, 0, 0⟩⟩,
        ⟨⟨100, 0, 0⟩, 10, ⟨0, 0, 0⟩, ⟨0, 0, 0⟩⟩ ],
    mode := false }

/-! ### Basic lemmas about the embedded primitives -/

@[simp] lemma vec3_add_def (a b : Vec3) :
    a + b = ⟨a.x + b.x, a.y + b.y, a.z + b.z⟩ := rfl

@[simp] lemma vec3_sub_def (a b : Vec3) :
    a - b = ⟨a.x - b.x, a.y - b.y, a.z - b.z⟩ := rfl

@[simp] lemma vec3_smul_def (v : Vec3) (c : ℚ) :
    v * c = ⟨v.x * c, v.y * c, v.z * c⟩ := rfl

lemma mixq_zero (a b : ℚ) : mixq a b 0 = a := by simp [mixq]

lemma mixq_one (a b : ℚ) : mixq a b 1 = b := by simp [mixq]

lemma mixV_zero (a b : Vec3) : mixV a b 0 = a := by
  cases a; cases b; simp [mixV, mixq_zero]

lemma mixV_one (a b : Vec3) : mixV a b 1 = b := by
  cases a; cases b; simp [mixV, mixq_one]

lemma firstPoint_eq_head (pts : List SplinePoint) (hne : pts ≠ []) :
    firstPoint pts = pts.head hne := by
  cases pts with
  | nil => exact absurd rfl hne
  | cons p rest => rfl

lemma lastPoint_eq_getLast (pts : List SplinePoint) (hne : pts ≠ []) :
    lastPoint pts = pts.getLast hne := by
  induction pts with
  | nil => exact absurd rfl hne
  | cons p rest ih =>
      cases rest with
      | nil => rfl
      | cons q rest2 =>
          simp [lastPoint, List.getLastD] at ih ⊢

lemma pointAt_eq_getElem (pts : List SplinePoint) (i : Nat) (h : i < pts.length) :
    pointAt pts i = pts[i] := List.getD_eq_getElem pts defaultPoint h

lemma getPointClamped_of_neg (pts : List SplinePoint) (hne : pts ≠ []) (idx : Int)
    (h : idx < 0) : getPointClamped pts idx = pts.head hne := by
  have hlen : 0 < pts.length := List.length_pos.mpr hne
  rw [getPointClamped, if_neg (by omega), if_pos h, firstPoint_eq_head pts hne]

lemma getPointClamped_of_ge (pts : List SplinePoint) (hne : pts ≠ []) (idx : Int)
    (h : (pts.length : Int) ≤ idx) : getPointClamped pts idx = pts.getLast hne := by
  rw [getPointClamped, if_pos h, lastPoint_eq_getLast pts hne]

lemma getPointClamped_of_lt (pts : List SplinePoint) (i : Nat) (h : i < pts.length) :
    getPointClamped pts (i : Int) = pointAt pts i := by
  rw [getPointClamped, if_neg (by omega), if_neg (by omega)]
  simp

lemma pointAt_cons_zero (p : SplinePoint) (rest : List SplinePoint) :
    pointAt (p :: rest) 0 = p := rfl

lemma pointAt_cons_succ (p : SplinePoint) (rest : List SplinePoint) (j : Nat) :
    pointAt (p :: rest) (j + 1) = pointAt rest j := rfl

/-! ### Accumulated-duration lemmas -/

lemma cumBefore_zero (pts : List SplinePoint) : cumBefore pts 0 = 0 := rfl

lemma cumBefore_eq_sum_take_map (pts : List SplinePoint) (i : Nat) :
    cumBefore pts i = ((pts.map SplinePoint.timestamp).take i).sum := by
  rw [cumBefore, List.map_take]

lemma cumBefore_succ (pts : List SplinePoint) (i : Nat) (h : i < pts.length) :
    cumBefore pts (i + 1) = cumBefore pts i + (pointAt pts i).timestamp := by
  rw [cumBefore_eq_sum_take_map, cumBefore_eq_sum_take_map,
    List.sum_take_succ _ _ (by simpa using h), List.getElem_map,
    pointAt_eq_getElem pts i h]

lemma cumBefore_le_totalDuration (pts : List SplinePoint) (i : Nat)
    (hnn : ∀ p ∈ pts, 0 ≤ p.timestamp) : cumBefore pts i ≤ totalDuration pts := by
  rw [cumBefore_eq_sum_take_map, totalDuration]
  have h0 : 0 ≤ ((pts.map SplinePoint.timestamp).drop i).sum := by
    refine List.sum_nonneg ?_
    intro x hx
    obtain ⟨p, hp, rfl⟩ := List.mem_map.mp (List.mem_of_mem_drop hx)
    exact hnn p hp
  have := List.sum_take_add_sum_drop (pts.map SplinePoint.timestamp) i
  linarith

/-! ### The resolve loop: segment selection and terminal fall-through -/

lemma resolveLoop_of_all_past (s : Spline) (t : ℚ) :
    ∀ (l : List SplinePoint) (i : Nat) (c : ℚ),
      (∀ p ∈ l, 0 ≤ p.timestamp) →
      c + (l.map SplinePoint.timestamp).sum ≤ t →
      resolveLoop s t l i c = (lastPoint s.points).point := by
  intro l
  induction l with
  | nil => intro i c _ _; rfl
  | cons p rest ih =>
      intro i c hnn hle
      simp only [List.map_cons, List.sum_cons] at hle
      have hrest : 0 ≤ (rest.map SplinePoint.timestamp).sum := by
        refine List.sum_nonneg ?_
        intro x hx
        obtain ⟨q, hq, rfl⟩ := List.mem_map.mp hx
        exact hnn q (List.mem_cons_of_mem _ hq)
      have hsum : c + p.timestamp ≤ t := by linarith
      simp only [resolveLoop, if_neg (not_lt.mpr hsum : ¬ c + p.timestamp > t)]
      exact ih (i + 1) (c + p.timestamp)
        (fun q hq => hnn q (List.mem_cons_of_mem _ hq)) (by linarith)

lemma resolveLoop_find (s : Spline) (t : ℚ) :
    ∀ (l : List SplinePoint) (k i : Nat) (c : ℚ),
      k < l.length →
      (∀ j, j < k →
        c + ((l.take j).map SplinePoint.timestamp).sum + (pointAt l j).timestamp ≤ t) →
      t < c + ((l.take k).map SplinePoint.timestamp).sum + (pointAt l k).timestamp →
      resolveLoop s t l i c =
        (if s.mode then splineInterpolateBezier s (i + k)
         else splineInterpolateWeighted s (i + k))
          ((t - (c + ((l.take k).map SplinePoint.timestamp).sum)) /
            (pointAt l k).timestamp) := by
  intro l
  induction l with
  | nil => intro k i c hk; exact absurd hk (by simp)
  | cons p rest ih =>
      intro k i c hk hlt hgt
      cases k with
      | zero =>
          simp only [List.take_zero, List.map_nil, List.sum_nil, add_zero,
            pointAt_cons_zero] at hgt ⊢
          simp only [resolveLoop, if_pos (hgt : c + p.timestamp > t)]
      | succ k2 =>
          have h0 : c + p.timestamp ≤ t := by
            have := hlt 0 (Nat.succ_pos k2)
            simpa [pointAt_cons_zero] using this
          simp only [resolveLoop, if_neg (not_lt.mpr h0 : ¬ c + p.timestamp > t)]
          have hk2 : k2 < rest.length := by simpa using hk
          have hlt2 : ∀ j, j < k2 →
              c + p.timestamp + ((rest.take j).map SplinePoint.timestamp).sum +
                (pointAt rest j).timestamp ≤ t := by
            intro j hj
            have := hlt (j + 1) (by omega)
            simp only [List.take_succ_cons, List.map_cons, List.sum_cons,
              pointAt_cons_succ] at this
            linarith
          have hgt2 : t < c + p.timestamp +
              ((rest.take k2).map SplinePoint.timestamp).sum +
              (pointAt rest k2).timestamp := by
            simp only [List.take_succ_cons, List.map_cons, List.sum_cons,
              pointAt_cons_succ] at hgt
            linarith
          have hres := ih k2 (i + 1) (c + p.timestamp) hk2 hlt2 hgt2
          have hidx : i + 1 + k2 = i + (k2 + 1) := by omega
          rw [hidx] at hres
          rw [hres]
          simp only [List.take_succ_cons, List.map_cons, List.sum_cons,
            pointAt_cons_succ]
          ring_nf

/-- Claim C3: for a timestamp landing strictly inside the walked segments,
`resolvePosition` selects the first index `i` whose accumulated time
window strictly contains the timestamp, computes the local parameter
`(t - cumBefore i) / durationToNext i`, and dispatches on the mode
(BEZIER = `true` selects the Bezier blend, WEIGHTED the weighted one). -/
theorem resolve_selects_first_segment (s : Spline) (t : ℚ) (i : Nat)
    (hi : i < s.points.length)
    (hgt : t < cumBefore s.points i + (pointAt s.points i).timestamp)
    (hfirst : ∀ j, j < i → cumBefore s.points j + (pointAt s.points j).timestamp ≤ t) :
    resolvePosition s t =
      (if s.mode then splineInterpolateBezier s i
       else splineInterpolateWeighted s i)
        ((t - cumBefore s.points i) / (pointAt s.points i).timestamp) := by
  have hres := resolveLoop_find s t s.points i 0 0 hi
    (fun j hj => by simpa [cumBefore] using hfirst j hj)
    (by simpa [cumBefore] using hgt)
  simpa [resolvePosition, cumBefore] using hres

/-- Claim C1 (amended): for a curve with non-negative durations, once the
timestamp reaches the sum of `durationToNext` over ALL points (the last
point's duration included, since the resolve loop walks it too), the
resolved position is exactly the last point's anchor. -/
theorem resolve_terminal_clamp (s : Spline) (t : ℚ) (hne : s.points ≠ [])
    (hnn : ∀ p ∈ s.points, 0 ≤ p.timestamp)
    (ht : totalDuration s.points ≤ t) :
    resolvePosition s t = (s.points.getLast hne).point := by
  rw [resolvePosition,
    resolveLoop_of_all_past s t s.points 0 0 hnn (by simpa [totalDuration] using ht),
    lastPoint_eq_getLast s.points hne]

/-- Claim C1 as stated is false: on the demo curve the sum of durations
excluding the last point is 10, yet `resolvePosition` at timestamp 15
returns the weighted blend of segment 1, not the last anchor — the
resolve loop also walks the last point's `durationToNext`. -/
theorem resolve_terminal_clamp_cex :
    totalDurationExceptLast demoSpline.points ≤ 15 ∧
    resolvePosition demoSpline 15 ≠ (lastPoint demoSpline.points).point := by
  constructor
  · norm_num [totalDurationExceptLast, demoSpline]
  · norm_num [resolvePosition, resolveLoop, demoSpline, splineInterpolateWeighted,
      splineInterpolateBezier, getPointClamped, pointAt, lastPoint, firstPoint,
      List.getLastD, List.getD, mixV, mixq, Vec3.mk.injEq]

/-- Witness for the amended claim C1 at the demo curve, timestamp 25. -/
theorem resolve_terminal_clamp_witness :
    resolvePosition demoSpline 25 = (demoSpline.points.getLast (by simp [demoSpline])).point :=
  resolve_terminal_clamp demoSpline 25 (by simp [demoSpline])
    (by
      intro p hp
      simp only [demoSpline, List.mem_cons, List.mem_singleton, List.not_mem_nil] at hp
      rcases hp with rfl | rfl | h
      · norm_num
      · norm_num
      · exact absurd h (by simp))
    (by norm_num [totalDuration, demoSpline])

/-- Witness for claim C3 at the demo curve: timestamp 10 sits exactly on
the segment boundary, so the loop selects segment 1 with local
parameter 0. -/
theorem resolve_selects_first_segment_witness :
    resolvePosition demoSpline 10 =
      (if demoSpline.mode then splineInterpolateBezier demoSpline 1
       else splineInterpolateWeighted demoSpline 1)
        ((10 - cumBefore demoSpline.points 1) /
          (pointAt demoSpline.points 1).timestamp) :=
  resolve_selects_first_segment demoSpline 10 1 (by simp [demoSpline])
    (by norm_num [cumBefore, pointAt, demoSpline, List.getD])
    (by
      intro j hj
      interval_cases j
      norm_num [cumBefore, pointAt, demoSpline, List.getD])

/-- Claim C10: a strictly negative timestamp is resolved through the
configured blend at base index 0 with local parameter
`t / durationToNext(0)` (negative whenever the duration is non-zero),
rather than being clamped to the first anchor. -/
theorem resolve_negative_timestamp_extrapolates (s : Spline) (t : ℚ)
    (hne : s.points ≠ []) (hd : 0 ≤ (pointAt s.points 0).timestamp)
    (ht : t < 0) :
    resolvePosition s t =
      (if s.mode then splineInterpolateBezier s 0
       else splineInterpolateWeighted s 0)
        (t / (pointAt s.points 0).timestamp) ∧
    ((pointAt s.points 0).timestamp ≠ 0 →
      t / (pointAt s.points 0).timestamp < 0) := by
  have hlen : 0 < s.points.length := List.length_pos.mpr hne
  constructor
  · have hres := resolve_selects_first_segment s t 0 hlen
      (by rw [cumBefore_zero]; linarith) (by omega)
    simpa [cumBefore_zero] using hres
  · intro h0
    exact div_neg_of_neg_of_pos ht (lt_of_le_of_ne hd (Ne.symm h0))

/-- Witness for claim C10 at the demo curve, timestamp -5. -/
theorem resolve_negative_timestamp_extrapolates_witness :
    (resolvePosition demoSpline (-5) =
      (if demoSpline.mode then splineInterpolateBezier demoSpline 0
       else splineInterpolateWeighted demoSpline 0)
        ((-5) / (pointAt demoSpline.points 0).timestamp) ∧
    ((pointAt demoSpline.points 0).timestamp ≠ 0 →
      (-5 : ℚ) / (pointAt demoSpline.points 0).timestamp < 0)) :=
  resolve_negative_timestamp_extrapolates demoSpline (-5)
    (by simp [demoSpline])
    (by norm_num [pointAt, demoSpline, List.getD])
    (by norm_num)

/-! ### Interpolation identities -/

/-- Claim C4: the De Casteljau blend of `splineInterpolateBezier` is
interpolatory: at parameter 0 it returns the base point's anchor, at
parameter 1 the anchor of the clamped point one past the base index. -/
theorem bezier_endpoint_interpolation (s : Spline) (i : Nat)
    (h : i < s.points.length) :
    splineInterpolateBezier s i 0 = (pointAt s.points i).point ∧
    splineInterpolateBezier s i 1 =
      (getPointClamped s.points ((i : Int) + 1)).point := by
  constructor
  · simp [splineInterpolateBezier, mixV_zero, getPointClamped_of_lt s.points i h]
  · simp [splineInterpolateBezier, mixV_one]

/-- Witness for claim C4 at the demo curve, base index 0. -/
theorem bezier_endpoint_interpolation_witness :
    splineInterpolateBezier demoSpline 0 0 = (pointAt demoSpline.points 0).point ∧
    splineInterpolateBezier demoSpline 0 1 =
      (getPointClamped demoSpline.points ((0 : Int) + 1)).point :=
  bezier_endpoint_interpolation demoSpline 0 (by simp [demoSpline])

/-- Claim C5 (amended): the weighted blend is the equal-weight average of
the three pairwise mixes of the four clamped anchors around the base
index, and at parameter 0 it reduces to `(A + B + C) / 3` (the three
mixes evaluate to `A`, `B`, `C` there), not necessarily the anchor. -/
theorem weighted_three_mix_average (s : Spline) (i : Nat) (t : ℚ)
    (hne : s.points ≠ []) :
    splineInterpolateWeighted s i t =
      (mixV (getPointClamped s.points ((i : Int) - 1)).point
            (getPointClamped s.points (i : Int)).point t +
       mixV (getPointClamped s.points (i : Int)).point
            (getPointClamped s.points ((i : Int) + 1)).point t +
       mixV (getPointClamped s.points ((i : Int) + 1)).point
            (getPointClamped s.points ((i : Int) + 2)).point t) * ((1 : ℚ) / 3) ∧
    splineInterpolateWeighted s i 0 =
      ((getPointClamped s.points ((i : Int) - 1)).point +
       (getPointClamped s.points (i : Int)).point +
       (getPointClamped s.points ((i : Int) + 1)).point) * ((1 : ℚ) / 3) := by
  constructor
  · rfl
  · simp [splineInterpolateWeighted, mixV_zero]

/-- Claim C5 as stated is false: at parameter 0 on the demo curve, base
index 1, the weighted blend equals `(A + B + C)/3 = (200/3, 0, 0)`, not
the claimed `(A + 2B + C)/3 = (100, 0, 0)`. -/
theorem weighted_blend_at_zero_cex :
    splineInterpolateWeighted demoSpline 1 0 ≠
      ((getPointClamped demoSpline.points ((1 : Int) - 1)).point +
       (getPointClamped demoSpline.points (1 : Int)).point * (2 : ℚ) +
       (getPointClamped demoSpline.points ((1 : Int) + 1)).point) * ((1 : ℚ) / 3) := by
  norm_num [splineInterpolateWeighted, getPointClamped, pointAt, demoSpline,
    lastPoint, firstPoint, List.getLastD, List.getD, mixV, mixq, Vec3.mk.injEq]

/-- Witness for the amended claim C5 at the demo curve, base index 1,
parameter 1/2. -/
theorem weighted_three_mix_average_witness :
    splineInterpolateWeighted demoSpline 1 ((1 : ℚ) / 2) =
      (mixV (getPointClamped demoSpline.points ((1 : Int) - 1)).point
            (getPointClamped demoSpline.points (1 : Int)).point ((1 : ℚ) / 2) +
       mixV (getPointClamped demoSpline.points (1 : Int)).point
            (getPointClamped demoSpline.points ((1 : Int) + 1)).point ((1 : ℚ) / 2) +
       mixV (getPointClamped demoSpline.points ((1 : Int) + 1)).point
            (getPointClamped demoSpline.points ((1 : Int) + 2)).point ((1 : ℚ) / 2)) *
        ((1 : ℚ) / 3) :=
  (weighted_three_mix_average demoSpline 1 ((1 : ℚ) / 2) (by simp [demoSpline])).1

/-! ### Boundary policy and build-gated validation -/

/-- Claim C7: the clamped accessor saturates every negative index to the
first point and every index at or past the count to the last point, and
is the identity lookup in between; in particular at the indices named by
the specification. -/
theorem clamped_index_boundary_policy (pts : List SplinePoint) (hne : pts ≠ []) :
    (∀ idx : Int, idx < 0 → getPointClamped pts idx = pts.head hne) ∧
    (∀ idx : Int, (pts.length : Int) ≤ idx → getPointClamped pts idx = pts.getLast hne) ∧
    (∀ i : Nat, i < pts.length → getPointClamped pts (i : Int) = pointAt pts i) ∧
    getPointClamped pts (-5) = pts.head hne ∧
    getPointClamped pts (-1) = pts.head hne ∧
    getPointClamped pts (pts.length : Int) = pts.getLast hne ∧
    getPointClamped pts ((pts.length : Int) + 100) = pts.getLast hne :=
  ⟨fun idx h => getPointClamped_of_neg pts hne idx h,
   fun idx h => getPointClamped_of_ge pts hne idx h,
   fun i h => getPointClamped_of_lt pts i h,
   getPointClamped_of_neg pts hne _ (by norm_num),
   getPointClamped_of_neg pts hne _ (by norm_num),
   getPointClamped_of_ge pts hne _ le_rfl,
   getPointClamped_of_ge pts hne _ (by omega)⟩

/-- Witness for claim C7 at the demo curve. -/
theorem clamped_index_boundary_policy_witness :
    getPointClamped demoSpline.points (-5) =
      demoSpline.points.head (by simp [demoSpline]) :=
  (clamped_index_boundary_policy demoSpline.points (by simp [demoSpline])).2.2.2.1

/-- Claim C8: in a validating build a negative `durationTicks` is a fatal
error raised before the point is appended (the checked decoder returns
an error and never a spline), while the unchecked decoder appends
unconditionally. -/
theorem addPoint_negative_duration_fatal (s : Spline) (op1 op2 op3 op4 : Int)
    (h : op4 < 0) :
    addPointChecked s op1 op2 op3 op4 = Except.error invalidTimestampError ∧
    (∀ s2, addPointChecked s op1 op2 op3 op4 ≠ Except.ok s2) ∧
    addPoint s op1 op2 op3 op4 =
      { s with points := s.points ++ [decodePoint op1 op2 op3 op4] } := by
  refine ⟨?_, ?_, rfl⟩
  · rw [addPointChecked, if_pos h]
  · intro s2 hc
    rw [addPointChecked, if_pos h] at hc
    exact Except.noConfusion hc

/-- Witness for claim C8 at a concrete negative duration. -/
theorem addPoint_negative_duration_fatal_witness :
    addPointChecked demoSpline 1 2 3 (-4) = Except.error invalidTimestampError :=
  (addPoint_negative_duration_fatal demoSpline 1 2 3 (-4) (by norm_num)).1

/-- Claim C9: in a validating build, resolving on an empty curve is a
fatal error (no position is ever returned), and on a non-empty curve the
checked resolver never takes the error path. -/
theorem resolve_empty_curve_fatal (s : Spline) (t : ℚ) :
    (s.points = [] →
      resolvePositionChecked s t = Except.error "incorrect spline data") ∧
    (s.points ≠ [] →
      resolvePositionChecked s t = Except.ok (resolvePosition s t)) := by
  constructor
  · intro h
    rw [resolvePositionChecked, if_pos (by simp [h])]
  · intro h
    rw [resolvePositionChecked, if_neg (by simpa using h)]

/-- Witness for claim C9: the empty curve errors, the demo curve does not. -/
theorem resolve_empty_curve_fatal_witness :
    resolvePositionChecked { points := [], mode := false } 0 =
      Except.error "incorrect spline data" ∧
    resolvePositionChecked demoSpline 0 = Except.ok (resolvePosition demoSpline 0) :=
  ⟨(resolve_empty_curve_fatal { points := [], mode := false } 0).1 rfl,
   (resolve_empty_curve_fatal demoSpline 0).2 (by simp [demoSpline])⟩

/-! ### Tangent precalculation -/

lemma precalcFrom_length (sq : ℚ → ℚ) (nv : Vec3 → Vec3) (lv : Vec3 → ℚ)
    (orig : List SplinePoint) :
    ∀ (l : List SplinePoint) (i : Nat),
      (precalcFrom sq nv lv orig i l).length = l.length := by
  intro l
  induction l with
  | nil => intro i; rfl
  | cons p rest ih => intro i; simp [precalcFrom, ih]

lemma precalcFrom_pointAt (sq : ℚ → ℚ) (nv : Vec3 → Vec3) (lv : Vec3 → ℚ)
    (orig : List SplinePoint) :
    ∀ (l : List SplinePoint) (i j : Nat), j < l.length →
      pointAt (precalcFrom sq nv lv orig i l) j =
        precalcPoint sq nv lv orig (i + j) (pointAt l j) := by
  intro l
  induction l with
  | nil => intro i j hj; exact absurd hj (by simp)
  | cons p rest ih =>
      intro i j hj
      cases j with
      | zero => simp [precalcFrom, pointAt_cons_zero]
      | succ j2 =>
          have := ih (i + 1) j2 (by simpa using hj)
          simp only [precalcFrom, pointAt_cons_succ, this]
          have hidx : i + 1 + j2 = i + (j2 + 1) := by omega
          rw [hidx]

lemma precalcFrom_map_anchor (sq : ℚ → ℚ) (nv : Vec3 → Vec3) (lv : Vec3 → ℚ)
    (orig : List SplinePoint) :
    ∀ (l : List SplinePoint) (i : Nat),
      (precalcFrom sq nv lv orig i l).map (fun p => (p.point, p.timestamp)) =
        l.map (fun p => (p.point, p.timestamp)) := by
  intro l
  induction l with
  | nil => intro i; rfl
  | cons p rest ih => intro i; simp only [precalcFrom, List.map_cons, ih]; rfl

/-- Claim C6: precalculation keeps the sequence length, and rewrites every
point's two tangent anchors to exactly the documented formulas over the
clamped neighbour anchors — and nothing else (the record update keeps the
anchor and duration fields of the point). -/
theorem precalculate_tangent_formula (sq : ℚ → ℚ) (nv : Vec3 → Vec3)
    (lv : Vec3 → ℚ) (pts : List SplinePoint) (i : Nat) (h : i < pts.length) :
    (precalculate sq nv lv pts).length = pts.length ∧
    pointAt (precalculate sq nv lv pts) i =
      { pointAt pts i with
        prev := nv ((getPointClamped pts ((i : Int) - 1)).point -
                    (getPointClamped pts ((i : Int) + 1)).point) *
                  sq (lv ((getPointClamped pts ((i : Int) - 1)).point -
                          (pointAt pts i).point)) +
                (pointAt pts i).point
        next := nv ((getPointClamped pts ((i : Int) + 1)).point -
                    (getPointClamped pts ((i : Int) - 1)).point) *
                  sq (lv ((getPointClamped pts ((i : Int) + 1)).point -
                          (pointAt pts i).point)) +
                (pointAt pts i).point } := by
  constructor
  · exact precalcFrom_length sq nv lv pts pts 0
  · rw [precalculate, precalcFrom_pointAt sq nv lv pts pts 0 i h]
    simp [precalcPoint]

/-- Witness for claim C6 at the demo curve, index 0, with concrete
instantiations of the external square-root, normalize and length
functions. -/
theorem precalculate_tangent_formula_witness :
    (precalculate id id Vec3.x demoSpline.points).length = demoSpline.points.length :=
  (precalculate_tangent_formula id id Vec3.x demoSpline.points 0 (by simp [demoSpline])).1

/-! ### Stream decoding -/

lemma readDataAux_decodes (sq : ℚ → ℚ) (nv : Vec3 → Vec3) (lv : Vec3 → ℚ) :
    ∀ (gs : List Group4) (pts : List SplinePoint) (rest : List Int),
      (∀ g ∈ gs, ¬(g.a = 0 ∧ g.b = 0 ∧ g.c = 0 ∧ g.d = 0)) →
      readDataAux sq nv lv pts (encodeGroups gs ++ 0 :: 0 :: 0 :: 0 :: rest) =
        some (precalculate sq nv lv
            (pts ++ gs.map (fun g => decodePoint g.a g.b g.c g.d)),
          4 * (gs.length + 1)) := by
  intro gs
  induction gs with
  | nil =>
      intro pts rest _
      simp [encodeGroups, readDataAux, is_segment_end]
  | cons g gs2 ih =>
      intro pts rest hnz
      have hg : is_segment_end g.a g.b g.c g.d = false := by
        rw [Bool.eq_false_iff]
        intro htrue
        apply hnz g (List.mem_cons_self g gs2)
        simpa [is_segment_end, Bool.and_eq_true, beq_iff_eq, and_assoc] using htrue
      simp only [encodeGroups, List.cons_append, readDataAux, hg,
        Bool.false_eq_true, if_false, List.append_eq]
      rw [ih (pts ++ [decodePoint g.a g.b g.c g.d]) rest
        (fun q hq => hnz q (List.mem_cons_of_mem _ hq))]
      simp only [List.map_cons, List.append_assoc, List.singleton_append,
        List.length_cons]
      constructor

/-- Claim C2: decoding a stream of `n` non-terminator groups followed by
the all-zero terminator appends exactly the `n` decoded points in stream
order (their anchors and durations are the cast stream values, preserved
by the automatic tangent precalculation) and returns a cursor advance of
exactly `4 * (n + 1)` values. -/
theorem readData_decode_termination (sq : ℚ → ℚ) (nv : Vec3 → Vec3)
    (lv : Vec3 → ℚ) (s : Spline) (gs : List Group4) (rest : List Int)
    (hnz : ∀ g ∈ gs, ¬(g.a = 0 ∧ g.b = 0 ∧ g.c = 0 ∧ g.d = 0)) :
    readData sq nv lv s (encodeGroups gs ++ 0 :: 0 :: 0 :: 0 :: rest) =
      some ({ points := precalculate sq nv lv
                (s.points ++ gs.map (fun g => decodePoint g.a g.b g.c g.d)),
              mode := s.mode },
            4 * (gs.length + 1)) ∧
    (precalculate sq nv lv
        (s.points ++ gs.map (fun g => decodePoint g.a g.b g.c g.d))).map
        (fun p => (p.point, p.timestamp)) =
      s.points.map (fun p => (p.point, p.timestamp)) ++
        gs.map (fun g => ((⟨(g.a : ℚ), (g.b : ℚ), (g.c : ℚ)⟩ : Vec3), (g.d : ℚ))) := by
  constructor
  · rw [readData, readDataAux_decodes sq nv lv gs s.points rest hnz]
  · rw [precalculate, precalcFrom_map_anchor]
    simp [decodePoint]

/-- Witness for claim C2: a two-group stream plus terminator decodes to
two points and a cursor advance of 12. -/
theorem readData_decode_termination_witness :
    readData id id Vec3.x { points := [], mode := false }
        (encodeGroups [⟨0, 0, 0, 10⟩, ⟨100, 0, 0, 10⟩] ++ 0 :: 0 :: 0 :: 0 :: []) =
      some ({ points := precalculate id id Vec3.x
                (([] : List SplinePoint) ++
                  [(⟨0, 0, 0, 10⟩ : Group4), ⟨100, 0, 0, 10⟩].map
                    (fun g => decodePoint g.a g.b g.c g.d)),
              mode := false },
            4 * ([(⟨0, 0, 0, 10⟩ : Group4), ⟨100, 0, 0, 10⟩].length + 1)) :=
  (readData_decode_termination id id Vec3.x { points := [], mode := false }
    [⟨0, 0, 0, 10⟩, ⟨100, 0, 0, 10⟩] [] (by decide)).1

end SplineModel
